import Mathlib

/-!
Verification of the enso-finance TC-intensity core: a shallow embedding of
the spatial-averaging engine, the environmental-variable extraction flow
around the potential-intensity (PI) stage, the monthly grid open/close
discipline, and the quantile-mapping bias-correction engine
(`scripts/tc_intensity/extract_tc_variables_by_basin_parallel.py` and
`scripts/tc_intensity/apply_uqam_postprocessing.py`).

Machine floats are modelled by `ℚ`; a NaN-able value is `Option ℚ` with
`none` playing NaN.  The latitude/longitude cosine weight
`np.cos(np.deg2rad x)` is a transcendental function, so the embedding is
parametric in a function `cosd : ℚ → ℚ` standing for `cos ∘ deg2rad`.
-/

set_option maxRecDepth 10000

deriving instance DecidableEq for Except

attribute [local semireducible] Rat.add Rat.sub Rat.mul Rat.inv

namespace EnsoFinance

/-! ### List helpers mirroring the numpy primitives used by the source -/

/-- Auxiliary loop for `argminAbs`: carries the best index and distance so
far; a strictly smaller distance replaces the best, so the first minimum
wins, exactly like `np.argmin`. -/
def argminAbsAux (x : ℚ) : List ℚ → ℕ → ℕ × ℚ → ℕ
  | [], _, best => best.1
  | c :: rest, i, best =>
    if |c - x| < best.2 then argminAbsAux x rest (i + 1) (i, |c - x|)
    else argminAbsAux x rest (i + 1) best

/-- First index minimizing `|xs i - x|`, mirroring
`int(np.abs(coords - x).argmin())` (first minimum wins). -/
def argminAbs (xs : List ℚ) (x : ℚ) : ℕ :=
  match xs with
  | [] => 0
  | c :: rest => argminAbsAux x rest 1 (0, |c - x|)

/-- Indices picked by an xarray label slice `sel(coord=slice(a, b))` on a
monotonically increasing coordinate axis: all positions whose coordinate
lies in the closed interval `[a, b]`. -/
def selIdx (coords : List ℚ) (a b : ℚ) : List ℕ :=
  (List.range coords.length).filter
    (fun i => decide (a ≤ coords.getD i 0) && decide (coords.getD i 0 ≤ b))

/-- Arithmetic mean, mirroring `np.ndarray.mean()`. -/
def listMean (xs : List ℚ) : ℚ := xs.sum / xs.length

/-- Order-preserving deduplication, mirroring `pandas.Series.unique()`
(first occurrence wins). -/
def uniqueFirst {α : Type} [DecidableEq α] (xs : List α) : List α :=
  xs.foldl (fun acc a => if a ∈ acc then acc else acc ++ [a]) []

/-- Positional gather `xs[idxs]` of numpy fancy indexing. -/
def selectAt (xs : List ℚ) (idxs : List ℕ) : List ℚ :=
  idxs.map (fun i => xs.getD i 0)

/-- Positional scatter `l[idxs] = vals` of numpy fancy assignment, writing
`some` values into a NaN-initialized (`none`) array. -/
def setAt (l : List (Option ℚ)) (idxs : List ℕ) (vals : List ℚ) : List (Option ℚ) :=
  (idxs.zip vals).foldl (fun acc p => acc.set p.1 (some p.2)) l

/-! ### Grid model

A `Grid` is one 2-d scalar field over a regular latitude/longitude grid
with monotonically increasing coordinate axes (one ERA5/ORAS5 `DataArray`
already reduced to a single time and level).  `none` data cells are NaN. -/

structure Grid where
  lats : List ℚ
  lons : List ℚ
  data : List (List (Option ℚ))
deriving DecidableEq, Repr

/-- Cell value `data[i][j]` (row = latitude index, column = longitude
index); out-of-range reads give NaN. -/
def gval (g : Grid) (i j : ℕ) : Option ℚ :=
  (g.data.getD i []).getD j none

/-! ### Spatial Averaging Engine
(`extract_spatial_average`, source lines 267-430, and
`extract_spatial_average_batch`, lines 159-265). -/

/-- Longitude-difference wrapping to `(-180, 180]`
(source lines 146-147 and 214-215). -/
def wrapLon (d : ℚ) : ℚ :=
  if 180 < d then d - 360 else if d < -180 then d + 360 else d

/-- The shift applied to a query longitude to reconcile it with the grid
longitude convention (source lines 311-319 / 181-188): `+360` when the
axis has a coordinate above 180 and the query is negative, `-360` when the
axis has a coordinate at or below 180 and the query exceeds 180. -/
def lonShift (lons : List ℚ) (lon : ℚ) : ℚ :=
  if lons.any (fun c => decide (180 < c)) && decide (lon < 0) then 360
  else if lons.any (fun c => decide (c ≤ 180)) && decide (180 < lon) then -360
  else 0

/-- Query longitude after convention handling. -/
def queryLon (g : Grid) (lon0 : ℚ) : ℚ := lon0 + lonShift g.lons lon0

/-- Latitude indices selected by the bounding-box slice
`latitude=slice(lat - r - 0.5, lat + r + 0.5)`. -/
def bboxLatIdx (g : Grid) (lat r : ℚ) : List ℕ :=
  selIdx g.lats (lat - r - 1/2) (lat + r + 1/2)

/-- Longitude indices selected by the bounding-box slice after the
convention shift has been applied to both bounds. -/
def bboxLonIdx (g : Grid) (lon0 r : ℚ) : List ℕ :=
  selIdx g.lons (lon0 - r - 1/2 + lonShift g.lons lon0)
    (lon0 + r + 1/2 + lonShift g.lons lon0)

/-- Nearest-grid-cell fallback on the full grid
(source lines 330-332 / 337-339). -/
def nearestFull (g : Grid) (lat lon : ℚ) : Option ℚ :=
  gval g (argminAbs g.lats lat) (argminAbs g.lons lon)

/-- Global index pair of the nearest cell within the selected region
(source lines 358-360 and the later region fallbacks). -/
def nearestRegionIdx (g : Grid) (latIdx lonIdx : List ℕ) (lat lon : ℚ) : ℕ × ℕ :=
  (latIdx.getD (argminAbs (latIdx.map (fun i => g.lats.getD i 0)) lat) 0,
   lonIdx.getD (argminAbs (lonIdx.map (fun j => g.lons.getD j 0)) lon) 0)

/-- Nearest-cell fallback value within the selected region. -/
def nearestRegion (g : Grid) (latIdx lonIdx : List ℕ) (lat lon : ℚ) : Option ℚ :=
  gval g (nearestRegionIdx g latIdx lonIdx lat lon).1
    (nearestRegionIdx g latIdx lonIdx lat lon).2

/-- Mean-latitude argument of the cosine in the planar distance
(source lines 151 / 216: `(lat1 + lat2.mean()) / 2`; the 2-d mean over the
region equals the mean of the region latitude axis). -/
def regionLatMeanArg (g : Grid) (lat r : ℚ) : ℚ :=
  (lat + listMean ((bboxLatIdx g lat r).map (fun i => g.lats.getD i 0))) / 2

/-- Circular-mask test of one cell: planar distance
`sqrt(dlat^2 + (wrap(dlon) * cos(mean_lat))^2) ≤ r`, embedded without the
square root as `0 ≤ r ∧ dlat^2 + ds^2 ≤ r^2`. -/
def inRadius (cosd : ℚ → ℚ) (g : Grid) (mArg lat lon r : ℚ) (i j : ℕ) : Bool :=
  let dlat := g.lats.getD i 0 - lat
  let ds := wrapLon (g.lons.getD j 0 - lon) * cosd mArg
  decide (0 ≤ r) && decide (dlat ^ 2 + ds ^ 2 ≤ r ^ 2)

/-- All (latitude index, longitude index) cells of the selected region. -/
def regionCells (g : Grid) (lat lon0 r : ℚ) : List (ℕ × ℕ) :=
  ((bboxLatIdx g lat r).map (fun i => (bboxLonIdx g lon0 r).map (fun j => (i, j)))).flatten

/-- The circular mask applied to a region cell. -/
def maskCell (cosd : ℚ → ℚ) (g : Grid) (lat lon0 r : ℚ) (p : ℕ × ℕ) : Bool :=
  inRadius cosd g (regionLatMeanArg g lat r) lat (queryLon g lon0) r p.1 p.2

/-- Region cells that are both inside the radius and finite
(`combined_mask`, source lines 390-391). -/
def combCells (cosd : ℚ → ℚ) (g : Grid) (lat lon0 r : ℚ) : List (ℕ × ℕ) :=
  (regionCells g lat lon0 r).filter
    (fun p => maskCell cosd g lat lon0 r p && (gval g p.1 p.2).isSome)

/-- Total cosine-latitude weight over the valid masked cells
(source line 407). -/
def totalWeight (cosd : ℚ → ℚ) (g : Grid) (lat lon0 r : ℚ) : ℚ :=
  ((combCells cosd g lat lon0 r).map (fun p => cosd (g.lats.getD p.1 0))).sum

/-- Shallow embedding of `extract_spatial_average` (source lines 267-430):
bounding-box preselection with longitude-convention shift, nearest-cell
fallback on an empty selection, circular mask with nearest-cell fallback
when no cell is inside the radius, the squeeze of a 1x1 region to a
scalar, NaN-aware cosine-latitude weighting with nearest-cell fallbacks on
an all-NaN mask or a zero total weight, and the normalized weighted sum.
`cosd` models `np.cos ∘ np.deg2rad`; `none` models NaN. -/
def extract_spatial_average (cosd : ℚ → ℚ) (g : Grid) (lat lon0 r : ℚ) : Option ℚ :=
  if (bboxLatIdx g lat r).isEmpty || (bboxLonIdx g lon0 r).isEmpty then
    nearestFull g lat (queryLon g lon0)
  else if (regionCells g lat lon0 r).all (fun p => !(maskCell cosd g lat lon0 r p)) then
    nearestRegion g (bboxLatIdx g lat r) (bboxLonIdx g lon0 r) lat (queryLon g lon0)
  else if ((bboxLatIdx g lat r).length == 1) && ((bboxLonIdx g lon0 r).length == 1) then
    gval g ((bboxLatIdx g lat r).getD 0 0) ((bboxLonIdx g lon0 r).getD 0 0)
  else if (combCells cosd g lat lon0 r).isEmpty then
    nearestRegion g (bboxLatIdx g lat r) (bboxLonIdx g lon0 r) lat (queryLon g lon0)
  else if totalWeight cosd g lat lon0 r = 0 then
    nearestRegion g (bboxLatIdx g lat r) (bboxLonIdx g lon0 r) lat (queryLon g lon0)
  else
    some (((combCells cosd g lat lon0 r).map
        (fun p => cosd (g.lats.getD p.1 0) * (gval g p.1 p.2).getD 0)).sum
      / totalWeight cosd g lat lon0 r)

/-- Shallow embedding of `extract_spatial_average_batch` (source lines
159-265): the first grid's coordinate axes drive the selection, mask and
weights shared by all fields; the fallbacks mirror the batch variant,
whose zero-total-weight branch appends NaN instead of falling back to the
nearest cell. -/
def extract_spatial_average_batch (cosd : ℚ → ℚ) (gs : List Grid) (lat lon0 r : ℚ) :
    List (Option ℚ) :=
  match gs with
  | [] => []
  | g0 :: _ =>
    if (bboxLatIdx g0 lat r).isEmpty || (bboxLonIdx g0 lon0 r).isEmpty then
      gs.map (fun g => gval g (argminAbs g0.lats lat) (argminAbs g0.lons (queryLon g0 lon0)))
    else if (regionCells g0 lat lon0 r).all (fun p => !(maskCell cosd g0 lat lon0 r p)) then
      gs.map (fun g =>
        gval g (nearestRegionIdx g0 (bboxLatIdx g0 lat r) (bboxLonIdx g0 lon0 r) lat (queryLon g0 lon0)).1
          (nearestRegionIdx g0 (bboxLatIdx g0 lat r) (bboxLonIdx g0 lon0 r) lat (queryLon g0 lon0)).2)
    else
      gs.map (fun g =>
        if ((bboxLatIdx g0 lat r).length == 1) && ((bboxLonIdx g0 lon0 r).length == 1) then
          gval g ((bboxLatIdx g0 lat r).getD 0 0) ((bboxLonIdx g0 lon0 r).getD 0 0)
        else
          let comb := (regionCells g0 lat lon0 r).filter
            (fun p => maskCell cosd g0 lat lon0 r p && (gval g p.1 p.2).isSome)
          if comb.isEmpty then
            gval g (nearestRegionIdx g0 (bboxLatIdx g0 lat r) (bboxLonIdx g0 lon0 r) lat (queryLon g0 lon0)).1
              (nearestRegionIdx g0 (bboxLatIdx g0 lat r) (bboxLonIdx g0 lon0 r) lat (queryLon g0 lon0)).2
          else
            let total := (comb.map (fun p => cosd (g0.lats.getD p.1 0))).sum
            if total = 0 then none
            else
              some ((comb.map
                  (fun p => cosd (g0.lats.getD p.1 0) * (gval g p.1 p.2).getD 0)).sum / total))

/-! ### Quantile-Mapping Corrector
(`apply_uqam_postprocessing.py`). -/

/-- The 100 default quantile levels `np.linspace(0.01, 1.0, 100)`
(source lines 47-49): exactly `(k+1)/100` for `k = 0, ..., 99`. -/
def quantLevels : List ℚ :=
  (List.range 100).map (fun k : ℕ => (((k + 1 : ℕ) : ℚ)) / 100)

/-- `np.quantile` with the default linear interpolation method on an
already sorted sample: virtual position `h = q * (n - 1)`, value
`x_i + (h - i) * (x_{i+1} - x_i)` with `i = floor h` (the upper index is
clipped to the last element, modelled by the `getD` default). -/
def quantileOfSorted (s : List ℚ) (q : ℚ) : ℚ :=
  let h := q * ((s.length : ℚ) - 1)
  let x0 := s.getD (⌊h⌋).toNat 0
  x0 + (h - ⌊h⌋) * (s.getD ((⌊h⌋).toNat + 1) x0 - x0)

/-- Non-decreasing sort of a sample (`np.quantile` sorts internally). -/
def sortQ (xs : List ℚ) : List ℚ :=
  xs.insertionSort (fun a b => a ≤ b)

/-- Embedding of `calculate_lmi_quantiles` (source lines 31-58): filter to
intensities of at least 18 m/s, return an all-NaN vector when nothing
survives, otherwise the 100 linear quantiles of the surviving sample. -/
def calculate_lmi_quantiles (intensities : List ℚ) : List (Option ℚ) :=
  let valid := intensities.filter (fun v => decide (18 ≤ v))
  if valid.isEmpty then quantLevels.map (fun _ => none)
  else quantLevels.map (fun q => some (quantileOfSorted (sortQ valid) q))

/-- A fitted quantile mapping: the retained (simulated, observed) quantile
knots of the piecewise-linear interpolant. -/
structure QuantileMapping where
  simQ : List ℚ
  obsQ : List ℚ
deriving DecidableEq, Repr

/-- The quantile pairs kept after dropping indices where either side is
NaN (source lines 94-96). -/
def finitePairs (sq oq : List (Option ℚ)) : List (ℚ × ℚ) :=
  (sq.zip oq).filterMap (fun p =>
    match p with
    | (some a, some b) => some (a, b)
    | _ => none)

/-- Embedding of `create_quantile_mapping` (source lines 61-112): compute
the observed and simulated quantile vectors, drop non-finite pairs, raise
on zero valid pairs, and raise where `scipy.interpolate.interp1d` itself
would (a linear interpolant needs at least 2 knots). -/
def create_quantile_mapping (observed simulated : List ℚ) :
    Except String QuantileMapping :=
  let pairs := finitePairs (calculate_lmi_quantiles simulated) (calculate_lmi_quantiles observed)
  if pairs.isEmpty then Except.error "No valid quantiles for mapping"
  else if pairs.length < 2 then Except.error "x and y arrays must have at least 2 entries"
  else Except.ok { simQ := pairs.map Prod.fst, obsQ := pairs.map Prod.snd }

/-- `np.searchsorted(xs, x)` with the default left side on a sorted list:
the number of elements strictly below `x`. -/
def searchsortedLeft (xs : List ℚ) (x : ℚ) : ℕ :=
  (xs.takeWhile (fun a => decide (a < x))).length

/-- Evaluation of the `interp1d` linear interpolant with the flat
`fill_value = (obsQ first, obsQ last)` boundary policy of the source
(lines 104-110): inputs below the first or above the last retained
simulated quantile take the boundary observed quantile; in range, the
interval is found by left search-sorted with indices clipped to
`[1, len - 1]`, and a zero-width interval (duplicated knots) yields NaN
(`none`), as the float slope `0/0` or `diff/0` does. -/
def interpScalar (m : QuantileMapping) (x : ℚ) : Option ℚ :=
  if x < m.simQ.headD 0 then some (m.obsQ.headD 0)
  else if m.simQ.getLastD 0 < x then some (m.obsQ.getLastD 0)
  else
    let ind := max 1 (min (searchsortedLeft m.simQ x) (m.simQ.length - 1))
    let xlo := m.simQ.getD (ind - 1) 0
    let xhi := m.simQ.getD ind 0
    if xhi = xlo then none
    else some (m.obsQ.getD (ind - 1) 0
      + (m.obsQ.getD ind 0 - m.obsQ.getD (ind - 1) 0) / (xhi - xlo) * (x - xlo))

/-- One corrected value: the interpolant followed by
`np.clip(., 0, inf)` and `np.nan_to_num(., nan=0, posinf=0)`
(source lines 134-139); a NaN interpolation result becomes 0. -/
def applyScalar (m : QuantileMapping) (x : ℚ) : ℚ :=
  match interpScalar m x with
  | none => 0
  | some v => max 0 v

/-- Embedding of `apply_quantile_correction` (source lines 115-141). -/
def apply_quantile_correction (m : QuantileMapping) (xs : List ℚ) : List ℚ :=
  xs.map (applyScalar m)

/-! ### Grouped post-processing
(`apply_postprocessing_to_storms`, source lines 144-272). -/

/-- One observation-table row with the columns the corrector reads;
`none` models a missing/NaN entry. -/
structure StormRow where
  storm_id : ℕ
  basin : Option String := none
  enso_phase : Option String := none
deriving DecidableEq, Repr

/-- The provenance record built by the corrector. -/
structure MappingInfo where
  method : String
  basin : String
  per_enso_phase : Bool
  mappings : List (String × String)
deriving DecidableEq, Repr

/-- Storm order of the run: `df['storm_id'].unique()`. -/
def uniqueStorms (df : List StormRow) : List ℕ :=
  uniqueFirst (df.map (fun row => row.storm_id))

/-- `np.where(np.isin(unique_storms, group_storms))[0]`: ascending indices
of the unique storms that belong to the group. -/
def groupIdxs (unique groupStorms : List ℕ) : List ℕ :=
  (List.range unique.length).filter (fun i => decide (unique.getD i 0 ∈ groupStorms))

/-- Unique storms whose `basin` column equals the requested basin
(source lines 236-238); a NaN basin never matches. -/
def basinStorms (df : List StormRow) (b : String) : List ℕ :=
  uniqueFirst ((df.filter (fun row => decide (row.basin = some b))).map (fun row => row.storm_id))

/-- Indices (into the unique-storm order) of the per-basin group. -/
def basinIdxs (df : List StormRow) (b : String) : List ℕ :=
  groupIdxs (uniqueStorms df) (basinStorms df b)

/-- The ENSO phases iterated over: `df['enso_phase'].dropna().unique()`
(source line 198). -/
def phasesOf (df : List StormRow) : List String :=
  uniqueFirst (df.filterMap (fun row => row.enso_phase))

/-- Unique storms of one ENSO phase (source lines 199-200). -/
def phaseStorms (df : List StormRow) (ph : String) : List ℕ :=
  uniqueFirst ((df.filter (fun row => decide (row.enso_phase = some ph))).map (fun row => row.storm_id))

/-- Indices (into the unique-storm order) of one ENSO-phase group. -/
def phaseIdxs (df : List StormRow) (ph : String) : List ℕ :=
  groupIdxs (uniqueStorms df) (phaseStorms df ph)

/-- One grouped-correction step — the body shared by the per-phase loop
(source lines 205-229) and the per-basin branch (lines 240-264).  A group
with fewer than 10 storms is corrected with the mapping fit on the full
population and tagged `used_overall_mapping`; otherwise the group-specific
fit is attempted, and if it raises, the bare `except` falls back to the
full-population mapping with tag `fallback_overall`.  Returns the updated
corrected array and the recorded strategy tag. -/
def processGroup (observed simulated : List ℚ) (idxs : List ℕ)
    (corrected : List (Option ℚ)) (specificTag : String) :
    Except String (List (Option ℚ) × String) :=
  if idxs.length < 10 then
    match create_quantile_mapping observed simulated with
    | Except.error e => Except.error e
    | Except.ok m =>
      Except.ok
        (setAt corrected idxs (apply_quantile_correction m (selectAt simulated idxs)),
         "used_overall_mapping")
  else
    match create_quantile_mapping (selectAt observed idxs) (selectAt simulated idxs) with
    | Except.ok m =>
      Except.ok
        (setAt corrected idxs (apply_quantile_correction m (selectAt simulated idxs)),
         specificTag)
    | Except.error _ =>
      match create_quantile_mapping observed simulated with
      | Except.error e => Except.error e
      | Except.ok m =>
        Except.ok
          (setAt corrected idxs (apply_quantile_correction m (selectAt simulated idxs)),
           "fallback_overall")

/-- The strategy tag `processGroup` records for a group, as a function of
the group alone (the tag does not depend on the threaded corrected
array). -/
def groupTag (observed simulated : List ℚ) (idxs : List ℕ) (specificTag : String) : String :=
  if idxs.length < 10 then "used_overall_mapping"
  else
    match create_quantile_mapping (selectAt observed idxs) (selectAt simulated idxs) with
    | Except.ok _ => specificTag
    | Except.error _ => "fallback_overall"

/-- The provenance record of a per-basin run (the `mapping_info` dict of
source lines 186-191 with the one entry added at lines 246/257/264). -/
def basinInfo (b : String) (tag : String) : MappingInfo :=
  { method := "quantile_matching", basin := b, per_enso_phase := false,
    mappings := [(b, tag)] }

/-- The provenance record of a per-ENSO-phase run. -/
def ensoInfo (maps : List (String × String)) : MappingInfo :=
  { method := "quantile_matching", basin := "all", per_enso_phase := true,
    mappings := maps }

/-- The provenance record of an ungrouped (overall) run. -/
def overallInfo : MappingInfo :=
  { method := "quantile_matching", basin := "all", per_enso_phase := false,
    mappings := [("all", "overall")] }

/-- One iteration of the per-phase loop (source lines 198-229): run the
group step for the phase, thread the corrected array, and append the
phase's strategy tag to the provenance. -/
def ensoStep (df : List StormRow) (observed simulated : List ℚ)
    (st : List (Option ℚ) × List (String × String)) (ph : String) :
    Except String (List (Option ℚ) × List (String × String)) :=
  (processGroup observed simulated (phaseIdxs df ph) st.1 "phase_specific").map
    (fun res => (res.1, st.2 ++ [(ph, res.2)]))

/-- Embedding of `apply_postprocessing_to_storms` (source lines 144-272):
rejects combined per-basin and per-phase grouping, checks the array
lengths against the unique storms, initializes the corrected array to NaN
(`none`), and dispatches to the per-phase loop, the per-basin branch, or
the overall mapping.  Python exceptions are `Except.error`; a raise from
a small-group or fallback overall fit propagates out, exactly as in the
source where only the group-specific fit sits inside `try`. -/
def apply_postprocessing_to_storms (df : List StormRow) (observed simulated : List ℚ)
    (basin : Option String) (per_enso_phase : Bool) :
    Except String (List (Option ℚ) × MappingInfo) :=
  if basin.isSome && per_enso_phase then
    Except.error "Cannot specify both basin and per_enso_phase"
  else if ¬((uniqueStorms df).length = observed.length ∧
      (uniqueStorms df).length = simulated.length) then
    Except.error "Mismatch between storms and observed or simulated lengths"
  else if per_enso_phase then
    ((phasesOf df).foldlM (ensoStep df observed simulated)
        (List.replicate simulated.length none, ([] : List (String × String)))).map
      (fun st => (st.1, ensoInfo st.2))
  else
    match basin with
    | some b =>
      (processGroup observed simulated (basinIdxs df b)
          (List.replicate simulated.length none) "basin_specific").map
        (fun res => (res.1, basinInfo b res.2))
    | none =>
      (create_quantile_mapping observed simulated).map
        (fun m => ((apply_quantile_correction m simulated).map some, overallInfo))

/-! ### Environmental Profile Assembler and PI Adapter
(`extract_all_environmental_variables_at_tc_location`, source lines
539-991, restricted to the PI-relevant flow: the full 29-level profile
assembly of section 1 (lines 652-685), surface pressure of section 2
(lines 699-726), the ORAS5-then-ERA5 SST chain of sections 2.5/2.6
(lines 728-796), and the PI gate of section 3 (lines 798-893).  The
diagnostic-level variables, mixed-layer depth, translation speed and
bathymetry sections write other, independent keys and are elided. -/

/-- The 29 ERA5 pressure levels used for the PI profile.
Modelled from the spec: the imported constants module
`scripts/tc_intensity/_pressure_levels_constants.py`
(`ERA5_PI_PRESSURE_LEVELS`) is not among the provided sources; the spec
fixes the profile at N = 29 levels spanning 1000-50 hPa. -/
def ERA5_PI_PRESSURE_LEVELS : List ℚ :=
  [1000, 975, 950, 925, 900, 875, 850, 825, 800, 775, 750, 700, 650, 600,
   550, 500, 450, 400, 350, 300, 250, 225, 200, 175, 150, 125, 100, 70, 50]

/-- The ERA5 pressure-level dataset of one month: the pressure-level axis
and, when the variable (under its short or descriptive name, with a
`pressure_level` dimension) is present, the temperature and specific
humidity fields indexed by pressure-level position. -/
structure PlevDataset where
  plevs : List ℚ
  tGrid : Option (ℕ → Grid)
  qGrid : Option (ℕ → Grid)

/-- The ERA5 single-level dataset of one month: surface pressure and SST
fields when present. -/
structure SlDataset where
  spGrid : Option Grid := none
  sstGrid : Option Grid := none

/-- The ORAS5 ocean dataset of one month.  `votemper = none` models the
in-memory extraction raising (variable or coordinates missing), the
branch the source catches at lines 757-766. -/
structure OrasDataset where
  votemper : Option Grid := none

/-- One extraction call's inputs.  `oras5FileSst` is the result of the
file-based `get_oras5_sst` retry (a loader outside the provided sources):
`none` when the file is missing, the call raises, or it returns None. -/
structure ExtractInput where
  plev : Option PlevDataset := none
  sl : Option SlDataset := none
  oras5 : Option OrasDataset := none
  oras5FileSst : Option ℚ := none
  lat : ℚ := 0
  lon : ℚ := 0

/-- The PI-relevant keys of the `variables` dict.  An outer `none` models
the key being absent from the dict; an inner `none` models a NaN value
stored under a present key. -/
structure ExtractVars where
  sst : Option (Option ℚ) := none
  surface_pressure : Option (Option ℚ) := none
  tempProfilePI : Option (List (Option ℚ)) := none
  qProfilePI : Option (List (Option ℚ)) := none
  plevsPI : Option (List ℚ) := none
  pi : Option (Option ℚ) := none
deriving DecidableEq, Repr

/-- The external PI kernel `calculate_pi_tcpyPI` (out of scope per the
spec; a pure function passed as a parameter).  It receives the SST and
surface-pressure values (possibly NaN), the two profiles and the pressure
levels in Pa, and either returns a (possibly NaN or negative) intensity
or raises. -/
def PiKernel : Type :=
  Option ℚ → Option ℚ → List (Option ℚ) → List (Option ℚ) → List ℚ →
    Except String (Option ℚ)

/-- The ORAS5 longitude normalization of source lines 737-739:
`lon if lon <= 180 else lon - 360`, then `+360` if negative. -/
def normLonSst (lon : ℚ) : ℚ :=
  let a := if lon ≤ 180 then lon else lon - 360
  if a < 0 then a + 360 else a

/-- Section 1 profile assembly (source lines 652-685): when the
pressure-level dataset carries both temperature and specific humidity,
the 29 target levels are resolved to nearest pressure-level indices and
both profiles are extracted with one batched spatial average each;
otherwise no profile key is written. -/
def profilesPart (cosd : ℚ → ℚ) (inp : ExtractInput) :
    Option (List (Option ℚ)) × Option (List (Option ℚ)) × Option (List ℚ) :=
  match inp.plev with
  | none => (none, none, none)
  | some pd =>
    match pd.tGrid, pd.qGrid with
    | some tG, some qG =>
      let idxs := ERA5_PI_PRESSURE_LEVELS.map (fun p => argminAbs pd.plevs p)
      (some (extract_spatial_average_batch cosd (idxs.map tG) inp.lat inp.lon (5/2)),
       some (extract_spatial_average_batch cosd (idxs.map qG) inp.lat inp.lon (5/2)),
       some (idxs.map (fun i => pd.plevs.getD i 0)))
    | _, _ => (none, none, none)

/-- Section 2 surface pressure (source lines 718-726): a spatial average
of the single-level surface-pressure field when present. -/
def spPart (cosd : ℚ → ℚ) (inp : ExtractInput) : Option (Option ℚ) :=
  match inp.sl with
  | some sl =>
    match sl.spGrid with
    | some g => some (extract_spatial_average cosd g inp.lat inp.lon (5/2))
    | none => none
  | none => none

/-- Section 2.6 ERA5 SST fallback (source lines 768-796): consulted only
when the SST key is still absent; a spatial average of the single-level
SST field when present. -/
def era5SstFallback (cosd : ℚ → ℚ) (inp : ExtractInput) : Option (Option ℚ) :=
  match inp.sl with
  | some sl =>
    match sl.sstGrid with
    | some g => some (extract_spatial_average cosd g inp.lat inp.lon (5/2))
    | none => none
  | none => none

/-- The SST chain of sections 2.5 and 2.6 (source lines 728-796; the two
sections are the only writers of the `sst` key, and section 2.5's
`'sst' not in variables` guard is always true on entry).  Preferred: the
nearest-cell surface `votemper` from the in-memory ORAS5 dataset,
converted Celsius to Kelvin — a NaN cell still sets the key to NaN.  If
the in-memory extraction raises, the file-based retry; only when the key
was never set does the ERA5 fallback run. -/
def sstChain (cosd : ℚ → ℚ) (inp : ExtractInput) : Option (Option ℚ) :=
  match inp.oras5 with
  | some ds =>
    match ds.votemper with
    | some g =>
      some ((nearestFull g inp.lat (normLonSst inp.lon)).map (fun c => c + 27315/100))
    | none =>
      match inp.oras5FileSst with
      | some c => some (some (c + 27315/100))
      | none => era5SstFallback cosd inp
  | none => era5SstFallback cosd inp

/-- Sections 1-2.6 combined: the `variables` dict as it stands when the
PI gate is reached (the sections write disjoint keys). -/
def assembleVars (cosd : ℚ → ℚ) (inp : ExtractInput) : ExtractVars :=
  { tempProfilePI := (profilesPart cosd inp).1,
    qProfilePI := (profilesPart cosd inp).2.1,
    plevsPI := (profilesPart cosd inp).2.2,
    surface_pressure := spPart cosd inp,
    sst := sstChain cosd inp,
    pi := none }

/-- The 29-level length check of source lines 837-844: any count mismatch
among the three profile arrays is a hard `ValueError`, never a silent
truncation or padding. -/
def verify_profile_lengths (t q : List (Option ℚ)) (p : List ℚ) : Except String Unit :=
  if t.length ≠ 29 ∨ q.length ≠ 29 ∨ p.length ≠ 29 then
    Except.error "CRITICAL: Expected exactly 29 pressure levels for PI calculation"
  else Except.ok ()

/-- Section 3, the PI gate (source lines 798-893).  Entered only when
both the `sst` and `surface_pressure` keys are present; inside, a missing
profile triple is a hard `ValueError` (NO FALLBACKS), the 29-level count
is checked, the transient profile keys are deleted, and the kernel is
called — a kernel exception is re-raised, a NaN or negative kernel value
is only warned about and still stored.  When the gate is not entered the
dict is returned as assembled, with no `pi` key. -/
def piGate (kernel : PiKernel) (w : ExtractVars) : Except String ExtractVars :=
  match w.sst, w.surface_pressure with
  | some sstV, some spV =>
    match w.tempProfilePI, w.qProfilePI, w.plevsPI with
    | some t, some q, some pl =>
      match verify_profile_lengths t q (pl.map (fun p => p * 100)) with
      | Except.error e => Except.error e
      | Except.ok _ =>
        match kernel sstV spV t q (pl.map (fun p => p * 100)) with
        | Except.ok piV =>
          Except.ok
            { w with
              tempProfilePI := none
              qProfilePI := none
              plevsPI := none
              pi := some piV }
        | Except.error e => Except.error e
    | _, _, _ =>
      Except.error "CRITICAL: Full 29-level profiles are REQUIRED for PI calculation"
  | _, _ => Except.ok w

/-- Embedding of `extract_all_environmental_variables_at_tc_location`
restricted to the PI-relevant flow: assemble the profile, surface
pressure and SST keys, then run the PI gate. -/
def extract_all_environmental_variables_at_tc_location
    (cosd : ℚ → ℚ) (kernel : PiKernel) (inp : ExtractInput) :
    Except String ExtractVars :=
  piGate kernel (assembleVars cosd inp)

/-! ### Monthly Grid Resource Manager discipline
(the per-month loop of `process_single_basin_parallel`, source lines
1154-1229), modelled as the trace of dataset open/close events one basin
run emits. -/

/-- The three grid categories opened per month. -/
inductive GridCat
  | plev
  | sl
  | oras5
deriving DecidableEq, Repr

/-- One resource event: a dataset of a category was opened or closed for
a (year, month). -/
inductive GridEvent
  | opened (c : GridCat) (y m : ℕ)
  | closed (c : GridCat) (y m : ℕ)
deriving DecidableEq, Repr

/-- The environment of a run: which grid files exist per (year, month)
(`load_monthly_era5_grids` / `load_monthly_oras5_grid` open exactly the
existing files, source lines 471-537), and whether an exception escapes
the per-month body after loading and reaches the outer `except` of line
1225 (per-observation extraction errors are caught inside and do not). -/
structure MonthEnv where
  plevAvail : ℕ → ℕ → Bool
  slAvail : ℕ → ℕ → Bool
  oras5Avail : ℕ → ℕ → Bool
  bodyRaises : ℕ → ℕ → Bool

/-- Open events the two load calls of source lines 1165-1166 emit. -/
def loadEvents (env : MonthEnv) (y m : ℕ) : List GridEvent :=
  (if env.plevAvail y m then [GridEvent.opened GridCat.plev y m] else []) ++
  (if env.slAvail y m then [GridEvent.opened GridCat.sl y m] else []) ++
  (if env.oras5Avail y m then [GridEvent.opened GridCat.oras5 y m] else [])

/-- Close events of the end-of-month cleanup block (source lines
1208-1221): every ERA5 dataset in the dict, and the ORAS5 dataset when it
was loaded. -/
def closeEvents (env : MonthEnv) (y m : ℕ) : List GridEvent :=
  (if env.plevAvail y m then [GridEvent.closed GridCat.plev y m] else []) ++
  (if env.slAvail y m then [GridEvent.closed GridCat.sl y m] else []) ++
  (if env.oras5Avail y m then [GridEvent.closed GridCat.oras5 y m] else [])

/-- The resource trace of one month of the loop (source lines 1155-1229):
both loaders run first; if no ERA5 category existed (`era5_datasets is
None`) the month is skipped with `continue` before the cleanup block; if
an exception escapes the body it jumps to the outer `except`, also
skipping the cleanup block; otherwise the observations are processed and
the cleanup block closes every dataset opened for the month. -/
def process_month (env : MonthEnv) (y m : ℕ) : List GridEvent :=
  if ¬(env.plevAvail y m || env.slAvail y m) then loadEvents env y m
  else if env.bodyRaises y m then loadEvents env y m
  else loadEvents env y m ++ closeEvents env y m

/-- The resource trace of a whole basin run: the months are processed in
order, each month's events forming one contiguous segment. -/
def process_basin (env : MonthEnv) (months : List (ℕ × ℕ)) : List GridEvent :=
  (months.map (fun p => process_month env p.1 p.2)).flatten

/-! ### Concrete instances used to evaluate the embedding

All concrete grids below place their cells at latitude 0, where the true
cosine weight `cos (deg2rad 0) = 1`; `cosd0` is the exact value of
`cos ∘ deg2rad` on every input at which these evaluations use it. -/

/-- Concrete cosine-weight function for evaluations at the equator. -/
def cosd0 : ℚ → ℚ := fun _ => 1

/-- Concrete stand-in for the external tcpyPI kernel: a pure function
returning 50 m/s. -/
def kernel0 : PiKernel := fun _ _ _ _ _ => Except.ok (some 50)

/-- A one-cell grid at latitude 0, longitude 10, holding value `v`. -/
def gOne (v : ℚ) : Grid :=
  { lats := [0], lons := [10], data := [[some v]] }

/-- A one-cell grid at latitude 0, longitude 10, holding NaN. -/
def gOneNaN : Grid :=
  { lats := [0], lons := [10], data := [[none]] }

/-- Extraction input with an assembled profile source absent and the SST
sources absent, but surface pressure present: the PI gate is skipped. -/
def cfgNoProfiles : ExtractInput :=
  { sl := some { spGrid := some (gOne 101325) }, lat := 0, lon := 10 }

/-- Extraction input with every PI prerequisite present: profiles from a
29-level pressure-level dataset, surface pressure, and ORAS5 SST. -/
def cfgFull : ExtractInput :=
  { plev := some { plevs := ERA5_PI_PRESSURE_LEVELS,
                   tGrid := some (fun _ => gOne 280),
                   qGrid := some (fun _ => gOne (1/100)) },
    sl := some { spGrid := some (gOne 101325) },
    oras5 := some { votemper := some (gOne 28) },
    lat := 0, lon := 10 }

/-- The variables record of the full extraction above. -/
def cfgFullVars : ExtractVars :=
  (extract_all_environmental_variables_at_tc_location cosd0 kernel0 cfgFull).toOption.getD {}

/-- Extraction input where the in-memory ORAS5 lookup succeeds but the
nearest cell is NaN, while a finite ERA5 SST field is available. -/
def cfgNanSst : ExtractInput :=
  { sl := some { sstGrid := some (gOne 300) },
    oras5 := some { votemper := some gOneNaN },
    lat := 0, lon := 10 }

/-- Extraction input with no ORAS5 source at all and a finite ERA5 SST
field: the documented fallback chain must reach ERA5. -/
def cfgNoOras : ExtractInput :=
  { sl := some { sstGrid := some (gOne 300) }, lat := 0, lon := 10 }

/-- The variables record of the no-ORAS5 extraction above. -/
def cfgNoOrasVars : ExtractVars :=
  (extract_all_environmental_variables_at_tc_location cosd0 kernel0 cfgNoOras).toOption.getD {}

/-- The 100-value simulated (and observed) LMI array of the spec's
end-to-end scenario 1: 100 values evenly spaced from 40 to 70 m/s. -/
def c2Sim : List ℚ :=
  (List.range 100).map (fun k => 40 + (k : ℚ) * 30 / 99)

/-- A storm table with 100 distinct storms matching `c2Sim`. -/
def c2Df : List StormRow :=
  (List.range 100).map (fun k => { storm_id := k })

/-- The quantile mapping fit on two copies of `c2Sim`. -/
def c2M : QuantileMapping :=
  (create_quantile_mapping c2Sim c2Sim).toOption.getD { simQ := [], obsQ := [] }

/-- A small observed LMI sample used to exercise `fit` and `apply`. -/
def c4Obs : List ℚ :=
  [20, 30, 40, 50, 60, 25, 35, 45, 55, 65, 22, 33]

/-- The quantile mapping fit on two copies of `c4Obs`. -/
def c4M : QuantileMapping :=
  (create_quantile_mapping c4Obs c4Obs).toOption.getD { simQ := [], obsQ := [] }

/-- A grid whose longitude axis spans the [0, 360) convention with
coordinates on both sides of 180, and whose field differs between the
cells nearest longitude 0 and longitude 300. -/
def c5G : Grid :=
  { lats := [0, 50], lons := [0, 100, 200, 300],
    data := [[some 999, some 1, some 1, some 1], [some 999, some 1, some 1, some 1]] }

/-- A 2x2 spatially constant grid with value 7. -/
def c8G : Grid :=
  { lats := [0, 1], lons := [10, 11],
    data := [[some 7, some 7], [some 7, some 7]] }

/-- A storm table with 3 storms in basin NA and 9 in basin EP. -/
def c6df : List StormRow :=
  (List.range 3).map (fun k => { storm_id := k, basin := some "NA" }) ++
  (List.range 9).map (fun k => { storm_id := k + 3, basin := some "EP" })

/-- Observed LMI for the 12 storms of `c6df`. -/
def c6obs : List ℚ := (List.range 12).map (fun k => 20 + (k : ℚ) * 3)

/-- Simulated LMI for the 12 storms of `c6df`. -/
def c6sim : List ℚ := (List.range 12).map (fun k => 25 + (k : ℚ) * 2)

/-- The per-basin NA correction run on `c6df`. -/
def c6out : List (Option ℚ) × MappingInfo :=
  (apply_postprocessing_to_storms c6df c6obs c6sim (some "NA") false).toOption.getD
    ([], { method := "", basin := "", per_enso_phase := false, mappings := [] })

/-- A storm table with storm 0 in basin EP and storms 1-10 in basin NA. -/
def c10df : List StormRow :=
  [{ storm_id := 0, basin := some "EP" }] ++
  (List.range 10).map (fun k => { storm_id := k + 1, basin := some "NA" })

/-- Observed LMI for the 11 storms of `c10df`. -/
def c10obs : List ℚ := (List.range 11).map (fun k => 20 + (k : ℚ) * 3)

/-- Simulated LMI for the 11 storms of `c10df`. -/
def c10sim : List ℚ := (List.range 11).map (fun k => 25 + (k : ℚ) * 2)

/-- The per-basin NA correction run on `c10df`. -/
def c10out : List (Option ℚ) × MappingInfo :=
  (apply_postprocessing_to_storms c10df c10obs c10sim (some "NA") false).toOption.getD
    ([], { method := "", basin := "", per_enso_phase := false, mappings := [] })

/-- An environment where only ORAS5 files exist and no exception escapes:
every month takes the ERA5-unavailable skip path. -/
def c3Env : MonthEnv :=
  { plevAvail := fun _ _ => false, slAvail := fun _ _ => false,
    oras5Avail := fun _ _ => true, bodyRaises := fun _ _ => false }

/-! ### General lemmas -/

theorem argminAbsAux_lt (x : ℚ) :
    ∀ (rest : List ℚ) (i : ℕ) (best : ℕ × ℚ),
      best.1 < i → argminAbsAux x rest i best < i + rest.length := by
  intro rest
  induction rest with
  | nil =>
    intro i best h
    simpa [argminAbsAux] using h
  | cons c cs ih =>
    intro i best h
    have hlen : i + 1 + cs.length = i + (c :: cs).length := by
      simp only [List.length_cons]
      omega
    by_cases hlt : |c - x| < best.2
    · have := ih (i + 1) (i, |c - x|) (Nat.lt_succ_self i)
      rw [hlen] at this
      simpa only [argminAbsAux, if_pos hlt] using this
    · have := ih (i + 1) best (Nat.lt_succ_of_lt h)
      rw [hlen] at this
      simpa only [argminAbsAux, if_neg hlt] using this

theorem argminAbs_lt (xs : List ℚ) (x : ℚ) (h : xs ≠ []) :
    argminAbs xs x < xs.length := by
  match xs, h with
  | c :: rest, _ =>
    have := argminAbsAux_lt x rest 1 (0, |c - x|) Nat.zero_lt_one
    simpa [argminAbs, Nat.add_comm] using this

theorem selIdx_lt {coords : List ℚ} {a b : ℚ} {i : ℕ}
    (h : i ∈ selIdx coords a b) : i < coords.length := by
  unfold selIdx at h
  exact List.mem_range.mp (List.mem_filter.mp h).1

theorem getD_mem {α : Type} (l : List α) (n : ℕ) (d : α) (h : n < l.length) :
    l.getD n d ∈ l := by
  rw [List.getD_eq_getElem?_getD, List.getElem?_eq_getElem h]
  exact List.getElem_mem h

theorem getD_replicate_none (n i : ℕ) :
    (List.replicate n (none : Option ℚ)).getD i none = none := by
  rw [List.getD_eq_getElem?_getD, List.getElem?_replicate]
  split <;> rfl

theorem getD_set_ne (l : List (Option ℚ)) (i j : ℕ) (v : Option ℚ) (h : i ≠ j) :
    (l.set i v).getD j none = l.getD j none := by
  rw [List.getD_eq_getElem?_getD, List.getD_eq_getElem?_getD, List.getElem?_set_ne h]

theorem sum_map_mul_const {α : Type} (l : List α) (f : α → ℚ) (c : ℚ) :
    (l.map (fun a => f a * c)).sum = (l.map f).sum * c := by
  induction l with
  | nil => simp
  | cons x xs ih => simp [ih, add_mul]

/-! ### Spatial-averaging lemmas -/

theorem mem_regionCells {g : Grid} {lat lon0 r : ℚ} {p : ℕ × ℕ}
    (h : p ∈ regionCells g lat lon0 r) :
    p.1 ∈ bboxLatIdx g lat r ∧ p.2 ∈ bboxLonIdx g lon0 r := by
  unfold regionCells at h
  rcases List.mem_flatten.mp h with ⟨row, hrow, hp⟩
  rcases List.mem_map.mp hrow with ⟨i, hi, rfl⟩
  rcases List.mem_map.mp hp with ⟨j, hj, hpe⟩
  subst hpe
  exact ⟨hi, hj⟩

theorem nearestFull_const (g : Grid) (lat lon c : ℚ)
    (hlat : g.lats ≠ []) (hlon : g.lons ≠ [])
    (hc : ∀ i j, i < g.lats.length → j < g.lons.length → gval g i j = some c) :
    nearestFull g lat lon = some c :=
  hc _ _ (argminAbs_lt _ _ hlat) (argminAbs_lt _ _ hlon)

theorem nearestRegion_const (g : Grid) (latIdx lonIdx : List ℕ) (lat lon c : ℚ)
    (h1 : latIdx ≠ []) (h2 : lonIdx ≠ [])
    (hs1 : ∀ i ∈ latIdx, i < g.lats.length) (hs2 : ∀ j ∈ lonIdx, j < g.lons.length)
    (hc : ∀ i j, i < g.lats.length → j < g.lons.length → gval g i j = some c) :
    nearestRegion g latIdx lonIdx lat lon = some c := by
  have k1 : argminAbs (latIdx.map (fun i => g.lats.getD i 0)) lat < latIdx.length := by
    have := argminAbs_lt (latIdx.map (fun i => g.lats.getD i 0)) lat
      (by simpa using h1)
    simpa using this
  have k2 : argminAbs (lonIdx.map (fun j => g.lons.getD j 0)) lon < lonIdx.length := by
    have := argminAbs_lt (lonIdx.map (fun j => g.lons.getD j 0)) lon
      (by simpa using h2)
    simpa using this
  exact hc _ _ (hs1 _ (getD_mem _ _ _ k1)) (hs2 _ (getD_mem _ _ _ k2))

/-- C8: for every grid field whose finite data values all equal one
constant `c`, `extract_spatial_average` returns `c` for every center,
every radius, and either longitude convention — on the weighted path and
on every nearest-grid-cell fallback path (empty selection, no cell inside
the radius, zero total weight). -/
theorem claim_C8_constant_field_average (cosd : ℚ → ℚ) (g : Grid) (lat lon0 r c : ℚ)
    (hlat : g.lats ≠ []) (hlon : g.lons ≠ [])
    (hc : ∀ i j, i < g.lats.length → j < g.lons.length → gval g i j = some c) :
    extract_spatial_average cosd g lat lon0 r = some c := by
  have hs1 : ∀ i ∈ bboxLatIdx g lat r, i < g.lats.length := fun i hi => selIdx_lt hi
  have hs2 : ∀ j ∈ bboxLonIdx g lon0 r, j < g.lons.length := fun j hj => selIdx_lt hj
  unfold extract_spatial_average
  split_ifs with h1 h2 h3 h4 h5
  · exact nearestFull_const g lat (queryLon g lon0) c hlat hlon hc
  all_goals
    have hne : bboxLatIdx g lat r ≠ [] ∧ bboxLonIdx g lon0 r ≠ [] := by
      rw [Bool.or_eq_true, List.isEmpty_iff, List.isEmpty_iff] at h1
      push_neg at h1
      exact h1
  · exact nearestRegion_const g _ _ lat (queryLon g lon0) c hne.1 hne.2 hs1 hs2 hc
  · have h0 : (0 : ℕ) < (bboxLatIdx g lat r).length := List.length_pos.mpr hne.1
    have h0b : (0 : ℕ) < (bboxLonIdx g lon0 r).length := List.length_pos.mpr hne.2
    exact hc _ _ (hs1 _ (getD_mem _ _ _ h0)) (hs2 _ (getD_mem _ _ _ h0b))
  · exact nearestRegion_const g _ _ lat (queryLon g lon0) c hne.1 hne.2 hs1 hs2 hc
  · exact nearestRegion_const g _ _ lat (queryLon g lon0) c hne.1 hne.2 hs1 hs2 hc
  · have hmap : (combCells cosd g lat lon0 r).map
        (fun p => cosd (g.lats.getD p.1 0) * (gval g p.1 p.2).getD 0)
        = (combCells cosd g lat lon0 r).map (fun p => cosd (g.lats.getD p.1 0) * c) := by
      apply List.map_congr_left
      intro p hp
      have hpr := (List.mem_filter.mp hp).1
      obtain ⟨hi, hj⟩ := mem_regionCells hpr
      rw [hc p.1 p.2 (selIdx_lt hi) (selIdx_lt hj)]
      rfl
    rw [hmap, sum_map_mul_const]
    have : ((combCells cosd g lat lon0 r).map (fun p => cosd (g.lats.getD p.1 0))).sum
        = totalWeight cosd g lat lon0 r := rfl
    rw [this, mul_comm, mul_div_assoc, div_self h5, mul_one]

/-- C8 witness: the theorem applied to a concrete 2x2 constant grid. -/
theorem claim_C8_witness :
    (c8G.lats ≠ [] ∧ c8G.lons ≠ [] ∧
      ∀ i, i < c8G.lats.length → ∀ j, j < c8G.lons.length → gval c8G i j = some 7) ∧
    extract_spatial_average cosd0 c8G 0 10 (5/2) = some 7 :=
  have hc : ∀ i, i < c8G.lats.length → ∀ j, j < c8G.lons.length → gval c8G i j = some 7 := by
    decide
  ⟨⟨by decide, by decide, hc⟩,
   claim_C8_constant_field_average cosd0 c8G 0 10 (5/2) 7 (by decide) (by decide)
     (fun i j hi hj => hc i hi j hj)⟩

/-- C5: evaluation at the failing input.  Against the [0, 360)-convention
grid `c5G` (whose axis has coordinates on both sides of 180), the query at
longitude -40 and the equivalent query at longitude 320 disagree: the
-40 query is shifted to 320 and reads the cell at longitude 300, while the
320 query is wrongly shifted to -40 by the `any(lon_coords <= 180)` test
of source line 316 and falls back to the nearest cell at longitude 0.
This holds for every cosine-weight function, since neither path reaches
the weighting stage; `cosd0` instantiates it. -/
theorem claim_C5_convention_bug :
    extract_spatial_average cosd0 c5G 0 (-40) (5/2) = some 1 ∧
    extract_spatial_average cosd0 c5G 0 320 (5/2) = some 999 ∧
    (some (1 : ℚ) : Option ℚ) ≠ some 999 := by
  refine ⟨by decide, by decide, by decide⟩

/-- C3: evaluation at the failing input.  With ORAS5 files present but no
ERA5 files for 2000-01, the month loop opens the ORAS5 dataset, skips the
month on the `era5_datasets is None` check, and never closes it — the
open event for 2000-01 has no matching close anywhere in the trace before
(or after) the grids of 2000-02 are requested. -/
theorem claim_C3_skip_path_leak :
    GridEvent.opened GridCat.oras5 2000 1 ∈ process_basin c3Env [(2000, 1), (2000, 2)] ∧
    GridEvent.closed GridCat.oras5 2000 1 ∉ process_basin c3Env [(2000, 1), (2000, 2)] ∧
    GridEvent.opened GridCat.oras5 2000 2 ∈ process_basin c3Env [(2000, 1), (2000, 2)] := by
  refine ⟨by decide, by decide, by decide⟩

/-- C7: the PI-stage profile length check succeeds exactly when all three
profile arrays have 29 elements; any count mismatch raises instead of
silently truncating or padding. -/
theorem claim_C7_profile_length_check (t q : List (Option ℚ)) (p : List ℚ) :
    verify_profile_lengths t q p = Except.ok () ↔
      (t.length = 29 ∧ q.length = 29 ∧ p.length = 29) := by
  unfold verify_profile_lengths
  split_ifs with h
  · constructor
    · intro hc
      cases hc
    · intro hall
      rcases h with h | h | h
      · exact absurd hall.1 h
      · exact absurd hall.2.1 h
      · exact absurd hall.2.2 h
  · push_neg at h
    exact ⟨fun _ => h, fun _ => rfl⟩

/-! ### PI-gate lemmas -/

theorem piGate_pi_present (kernel : PiKernel) (w v : ExtractVars)
    (h : piGate kernel w = Except.ok v)
    (hs : v.sst.isSome = true) (hp : v.surface_pressure.isSome = true) :
    v.pi.isSome = true := by
  unfold piGate at h
  split at h
  · split at h
    · split at h
      · cases h
      · split at h
        · injection h with h
          subst h
          rfl
        · cases h
    · cases h
  · rename_i hnot
    injection h with h
    subst h
    rw [Option.isSome_iff_exists] at hs hp
    obtain ⟨a, ha⟩ := hs
    obtain ⟨b, hb⟩ := hp
    exact (hnot a b ha hb).elim

theorem piGate_sst_eq (kernel : PiKernel) (w v : ExtractVars)
    (h : piGate kernel w = Except.ok v) : v.sst = w.sst := by
  unfold piGate at h
  split at h
  · split at h
    · split at h
      · cases h
      · split at h
        · injection h with h
          subst h
          rfl
        · cases h
    · cases h
  · injection h with h
    subst h
    rfl

/-- C1 (amended): whenever the extraction returns successfully with both
the SST and surface-pressure keys present — the condition under which the
PI stage is entered — the PI key is present: a missing profile triple
raises inside the gate and a kernel failure re-raises, so PI is never
silently absent once the stage is entered.  (When SST or surface pressure
is missing the gate is skipped and the profile is returned without PI,
without raising; see the counterexample.) -/
theorem claim_C1_amended_pi_gate (cosd : ℚ → ℚ) (kernel : PiKernel) (inp : ExtractInput)
    (v : ExtractVars)
    (h : extract_all_environmental_variables_at_tc_location cosd kernel inp = Except.ok v)
    (hs : v.sst.isSome = true) (hp : v.surface_pressure.isSome = true) :
    v.pi.isSome = true := by
  unfold extract_all_environmental_variables_at_tc_location at h
  exact piGate_pi_present kernel (assembleVars cosd inp) v h hs hp

/-- C1 counterexample: with the profile triple unassembled (no
pressure-level data) and SST absent (no ORAS5, no ERA5 SST field) but
surface pressure present, the extraction returns successfully — no
IncompleteProfile-style error — with the PI key silently absent, so the
claim that it raises whenever the triplet or one of its prerequisites is
missing is false. -/
theorem claim_C1_counterexample :
    (extract_all_environmental_variables_at_tc_location cosd0 kernel0 cfgNoProfiles).map
      (fun v => (v.pi, v.sst, v.tempProfilePI, v.surface_pressure.isSome)) =
      Except.ok (none, none, none, true) := by
  decide

/-- C1 witness: the amended theorem applied to a fully provisioned
extraction input. -/
theorem claim_C1_witness :
    (extract_all_environmental_variables_at_tc_location cosd0 kernel0 cfgFull =
        Except.ok cfgFullVars ∧
      cfgFullVars.sst.isSome = true ∧ cfgFullVars.surface_pressure.isSome = true) ∧
    cfgFullVars.pi.isSome = true :=
  ⟨⟨by decide, by decide, by decide⟩,
   claim_C1_amended_pi_gate cosd0 kernel0 cfgFull cfgFullVars (by decide) (by decide)
     (by decide)⟩

/-- The SST key of a successful extraction is exactly the value of the
section 2.5/2.6 chain (the PI gate never modifies it). -/
theorem extract_sst_eq_chain (cosd : ℚ → ℚ) (kernel : PiKernel) (inp : ExtractInput)
    (v : ExtractVars)
    (h : extract_all_environmental_variables_at_tc_location cosd kernel inp = Except.ok v) :
    v.sst = sstChain cosd inp := by
  unfold extract_all_environmental_variables_at_tc_location at h
  rw [piGate_sst_eq kernel (assembleVars cosd inp) v h]
  rfl

/-- C9 (amended): the ERA5 SST estimate is consulted exactly when the
ORAS5 pathway leaves the SST key unset — the ORAS5 source is absent, or
its in-memory lookup raises and the file-based retry yields nothing.  An
in-memory ORAS5 lookup that succeeds — even one returning NaN — always
sets the key from ORAS5, and the ERA5 fallback is then never consulted. -/
theorem claim_C9_sst_fallback_chain :
    (∀ cosd kernel inp ds g v,
        inp.oras5 = some ds → ds.votemper = some g →
        extract_all_environmental_variables_at_tc_location cosd kernel inp = Except.ok v →
        v.sst = some ((nearestFull g inp.lat (normLonSst inp.lon)).map
          (fun t => t + 27315/100))) ∧
    (∀ cosd kernel inp v,
        inp.oras5 = none →
        extract_all_environmental_variables_at_tc_location cosd kernel inp = Except.ok v →
        v.sst = era5SstFallback cosd inp) ∧
    (∀ cosd kernel inp ds v,
        inp.oras5 = some ds → ds.votemper = none → inp.oras5FileSst = none →
        extract_all_environmental_variables_at_tc_location cosd kernel inp = Except.ok v →
        v.sst = era5SstFallback cosd inp) := by
  refine ⟨?_, ?_, ?_⟩
  · intro cosd kernel inp ds g v h1 h2 h
    rw [extract_sst_eq_chain cosd kernel inp v h]
    simp only [sstChain, h1, h2]
  · intro cosd kernel inp v h1 h
    rw [extract_sst_eq_chain cosd kernel inp v h]
    simp only [sstChain, h1]
  · intro cosd kernel inp ds v h1 h2 h3 h
    rw [extract_sst_eq_chain cosd kernel inp v h]
    simp only [sstChain, h1, h2, h3]

/-- C9 counterexample: an in-memory ORAS5 lookup that succeeds with a NaN
cell records SST as NaN and masks the finite ERA5 fallback, so the claim
that a lookup yielding no usable value results in the ERA5 fallback being
consulted is false. -/
theorem claim_C9_counterexample :
    (extract_all_environmental_variables_at_tc_location cosd0 kernel0 cfgNanSst).map
      (fun v => v.sst) = Except.ok (some none) ∧
    era5SstFallback cosd0 cfgNanSst = some (some 300) := by
  refine ⟨by decide, by decide⟩

/-- C9 witness: the amended theorem applied where ORAS5 is absent, so the
chain reaches the ERA5 estimate. -/
theorem claim_C9_witness :
    (cfgNoOras.oras5 = none ∧
      extract_all_environmental_variables_at_tc_location cosd0 kernel0 cfgNoOras =
        Except.ok cfgNoOrasVars) ∧
    cfgNoOrasVars.sst = era5SstFallback cosd0 cfgNoOras ∧
    cfgNoOrasVars.sst = some (some 300) :=
  ⟨⟨rfl, by decide⟩,
   claim_C9_sst_fallback_chain.2.1 cosd0 kernel0 cfgNoOras cfgNoOrasVars rfl (by decide),
   by decide⟩

/-! ### Quantile-mapping lemmas -/

theorem mem_sortQ {xs : List ℚ} {v : ℚ} : v ∈ sortQ xs ↔ v ∈ xs := by
  unfold sortQ
  exact (List.perm_insertionSort _ xs).mem_iff

theorem length_sortQ (xs : List ℚ) : (sortQ xs).length = xs.length :=
  (List.perm_insertionSort _ xs).length_eq

theorem quantLevels_bounds {q : ℚ} (h : q ∈ quantLevels) : 0 ≤ q ∧ q ≤ 1 := by
  unfold quantLevels at h
  rcases List.mem_map.mp h with ⟨k, hk, rfl⟩
  have hk100 : ((k + 1 : ℕ) : ℚ) ≤ 100 := by
    have := List.mem_range.mp hk
    exact_mod_cast this
  have hk0 : (0 : ℚ) ≤ ((k + 1 : ℕ) : ℚ) := Nat.cast_nonneg _
  constructor
  · positivity
  · rw [div_le_one (by norm_num)]
    linarith

theorem quantileOfSorted_ge (s : List ℚ) (q t : ℚ) (hne : s ≠ [])
    (hall : ∀ v ∈ s, t ≤ v) (h0 : 0 ≤ q) (h1 : q ≤ 1) :
    t ≤ quantileOfSorted s q := by
  simp only [quantileOfSorted]
  have hn1 : 1 ≤ s.length := List.length_pos.mpr hne
  have hcast : (1 : ℚ) ≤ (s.length : ℚ) := by exact_mod_cast hn1
  set h := q * ((s.length : ℚ) - 1) with hh
  have hh0 : 0 ≤ h := mul_nonneg h0 (by linarith)
  have hhle : h ≤ (s.length : ℚ) - 1 := by
    calc h ≤ 1 * ((s.length : ℚ) - 1) := by
          apply mul_le_mul_of_nonneg_right h1
          linarith
    _ = (s.length : ℚ) - 1 := one_mul _
  have hfl0 : (0 : ℤ) ≤ ⌊h⌋ := Int.le_floor.mpr (by simpa using hh0)
  have hfl : (⌊h⌋ : ℚ) ≤ (s.length : ℚ) - 1 := le_trans (Int.floor_le h) hhle
  have hfli : ⌊h⌋ ≤ (s.length : ℤ) - 1 := by exact_mod_cast hfl
  have hiN : (⌊h⌋).toNat < s.length := by omega
  have hx0 : t ≤ s.getD (⌊h⌋).toNat 0 := hall _ (getD_mem _ _ _ hiN)
  have hx1 : t ≤ s.getD ((⌊h⌋).toNat + 1) (s.getD (⌊h⌋).toNat 0) := by
    by_cases hlt : (⌊h⌋).toNat + 1 < s.length
    · exact hall _ (getD_mem _ _ _ hlt)
    · rw [List.getD_eq_getElem?_getD, List.getElem?_eq_none (by omega), Option.getD_none]
      exact hx0
  have hg0 : 0 ≤ h - ⌊h⌋ := sub_nonneg.mpr (Int.floor_le h)
  have hg1 : h - ⌊h⌋ < 1 := by
    have := Int.lt_floor_add_one h
    push_cast at this ⊢
    linarith
  nlinarith [mul_nonneg hg0 (sub_nonneg.mpr hx1),
    mul_nonneg (by linarith : (0 : ℚ) ≤ 1 - (h - ⌊h⌋)) (sub_nonneg.mpr hx0)]

theorem calc_lmi_ge_18 {xs : List ℚ} {b : ℚ}
    (h : some b ∈ calculate_lmi_quantiles xs) : 18 ≤ b := by
  simp only [calculate_lmi_quantiles] at h
  split at h
  · rcases List.mem_map.mp h with ⟨q, _, hq⟩
    cases hq
  · rename_i hval
    rcases List.mem_map.mp h with ⟨q, hq, he⟩
    injection he with he
    subst he
    have hne : sortQ (xs.filter (fun v => decide (18 ≤ v))) ≠ [] := by
      rw [← List.length_pos, length_sortQ, List.length_pos]
      exact fun hnil => hval (by rw [hnil]; rfl)
    refine quantileOfSorted_ge _ _ _ hne ?_ (quantLevels_bounds hq).1 (quantLevels_bounds hq).2
    intro v hv
    have := List.mem_filter.mp (mem_sortQ.mp hv)
    exact of_decide_eq_true this.2

theorem mem_finitePairs {sq oq : List (Option ℚ)} {pr : ℚ × ℚ}
    (h : pr ∈ finitePairs sq oq) : some pr.1 ∈ sq ∧ some pr.2 ∈ oq := by
  unfold finitePairs at h
  rcases List.mem_filterMap.mp h with ⟨p, hp, he⟩
  obtain ⟨a, b⟩ := p
  cases a with
  | none => cases he
  | some a =>
    cases b with
    | none => cases he
    | some b =>
      injection he with he
      subst he
      exact ⟨(List.of_mem_zip hp).1, (List.of_mem_zip hp).2⟩

/-- Facts a successful `fit` guarantees: the two knot lists have equal
length at least 2, every simulated knot is a retained simulated quantile,
and every observed knot is a retained observed quantile. -/
theorem fit_ok_facts {obs sim : List ℚ} {m : QuantileMapping}
    (h : create_quantile_mapping obs sim = Except.ok m) :
    m.simQ.length = m.obsQ.length ∧ 2 ≤ m.simQ.length ∧
    (∀ a ∈ m.simQ, some a ∈ calculate_lmi_quantiles sim) ∧
    (∀ b ∈ m.obsQ, some b ∈ calculate_lmi_quantiles obs) := by
  simp only [create_quantile_mapping] at h
  split_ifs at h with h1 h2
  injection h with h
  subst h
  refine ⟨by simp, ?_, ?_, ?_⟩
  · simp only [List.length_map]
    omega
  · intro a ha
    rcases List.mem_map.mp ha with ⟨pr, hpr, rfl⟩
    exact (mem_finitePairs hpr).1
  · intro b hb
    rcases List.mem_map.mp hb with ⟨pr, hpr, rfl⟩
    exact (mem_finitePairs hpr).2

theorem fit_obsQ_ge_18 {obs sim : List ℚ} {m : QuantileMapping}
    (h : create_quantile_mapping obs sim = Except.ok m) :
    ∀ b ∈ m.obsQ, 18 ≤ b :=
  fun b hb => calc_lmi_ge_18 ((fit_ok_facts h).2.2.2 b hb)

theorem fit_obsQ_ne_nil {obs sim : List ℚ} {m : QuantileMapping}
    (h : create_quantile_mapping obs sim = Except.ok m) : m.obsQ ≠ [] := by
  rw [← List.length_pos]
  have h1 := (fit_ok_facts h).1
  have h2 := (fit_ok_facts h).2.1
  omega

theorem headD_mem (l : List ℚ) (d : ℚ) (h : l ≠ []) : l.headD d ∈ l := by
  cases l with
  | nil => exact absurd rfl h
  | cons x xs => exact List.mem_cons_self x xs

theorem getLastD_mem (l : List ℚ) (d : ℚ) (h : l ≠ []) : l.getLastD d ∈ l := by
  rw [List.getLastD_eq_getLast?, List.getLast?_eq_getLast l h, Option.getD_some]
  exact List.getLast_mem h

/-- C4: for every mapping produced by `fit` and every array of (finite,
by the `ℚ` embedding) inputs, every corrected element is non-negative;
inputs below the first retained simulated quantile map exactly to the
first retained observed quantile and inputs above the last map exactly to
the last (flat clamping, no extrapolation), the boundary values being the
clip-stable observed quantiles (all at least 18); a NaN interpolation
result becomes 0 by the `nan_to_num` step, which the `none ↦ 0` branch of
`applyScalar` embeds. -/
theorem claim_C4_apply_clamped (obs sim : List ℚ) (m : QuantileMapping)
    (h : create_quantile_mapping obs sim = Except.ok m) :
    (∀ xs : List ℚ, ∀ y ∈ apply_quantile_correction m xs, 0 ≤ y) ∧
    (∀ x : ℚ, x < m.simQ.headD 0 → applyScalar m x = m.obsQ.headD 0) ∧
    (∀ x : ℚ, m.simQ.headD 0 ≤ x → m.simQ.getLastD 0 < x →
      applyScalar m x = m.obsQ.getLastD 0) := by
  have hobs := fit_obsQ_ge_18 h
  have hne := fit_obsQ_ne_nil h
  refine ⟨?_, ?_, ?_⟩
  · intro xs y hy
    rcases List.mem_map.mp hy with ⟨x, _, rfl⟩
    unfold applyScalar
    split
    · exact le_refl 0
    · exact le_max_left 0 _
  · intro x hx
    have hi : interpScalar m x = some (m.obsQ.headD 0) := by
      unfold interpScalar
      rw [if_pos hx]
    unfold applyScalar
    rw [hi]
    have h18 : 18 ≤ m.obsQ.headD 0 := hobs _ (headD_mem _ _ hne)
    exact max_eq_right (by linarith)
  · intro x hx1 hx2
    have hi : interpScalar m x = some (m.obsQ.getLastD 0) := by
      unfold interpScalar
      rw [if_neg (not_lt.mpr hx1), if_pos hx2]
    unfold applyScalar
    rw [hi]
    have h18 : 18 ≤ m.obsQ.getLastD 0 := hobs _ (getLastD_mem _ _ hne)
    exact max_eq_right (by linarith)

/-- C4 witness: the theorem applied to a concrete fitted mapping, at an
input far below and one far above the retained quantile range. -/
theorem claim_C4_witness :
    (create_quantile_mapping c4Obs c4Obs = Except.ok c4M ∧
      (0 : ℚ) < c4M.simQ.headD 0 ∧ c4M.simQ.headD 0 ≤ 1000000 ∧
      c4M.simQ.getLastD 0 < 1000000) ∧
    applyScalar c4M 0 = c4M.obsQ.headD 0 ∧
    applyScalar c4M 1000000 = c4M.obsQ.getLastD 0 ∧
    (0 : ℚ) ≤ (apply_quantile_correction c4M [0, 1000000]).headD 0 :=
  ⟨⟨by decide, by decide, by decide, by decide⟩,
   (claim_C4_apply_clamped c4Obs c4Obs c4M (by decide)).2.1 0 (by decide),
   (claim_C4_apply_clamped c4Obs c4Obs c4M (by decide)).2.2 1000000 (by decide) (by decide),
   (claim_C4_apply_clamped c4Obs c4Obs c4M (by decide)).1 [0, 1000000] _ (by decide)⟩

theorem finitePairs_self (l : List (Option ℚ)) :
    (finitePairs l l).map Prod.snd = (finitePairs l l).map Prod.fst := by
  unfold finitePairs
  induction l with
  | nil => rfl
  | cons x xs ih =>
    cases x with
    | none => simpa [List.zip_cons_cons, List.filterMap_cons] using ih
    | some a => simpa [List.zip_cons_cons, List.filterMap_cons] using ih

/-- C2 (amended): `fit` on two identical arrays yields a mapping that is
the identity at every retained quantile (equal observed and simulated
knots).  On the spec's scenario-1 arrays (100 values evenly spaced 40-70),
`apply` of that mapping leaves every value unchanged except the minimum:
40 lies below the lowest retained quantile (the 1st percentile, 40.3) and
is clamped up to it.  The provenance record is
`{method: quantile_matching, mappings: {all: overall}}` as claimed. -/
theorem claim_C2_identity_mapping :
    (∀ (xs : List ℚ) (m : QuantileMapping),
        create_quantile_mapping xs xs = Except.ok m → m.obsQ = m.simQ) ∧
    (apply_postprocessing_to_storms c2Df c2Sim c2Sim none false).map
        (fun out => (out.1, out.2.method, out.2.mappings)) =
      Except.ok ((some (403/10)) :: (c2Sim.drop 1).map some, "quantile_matching",
        [("all", "overall")]) := by
  constructor
  · intro xs m h
    simp only [create_quantile_mapping] at h
    split_ifs at h with h1 h2
    injection h with h
    subst h
    exact finitePairs_self _
  · decide

/-- C2 counterexample: on the claim's own example arrays the corrected
array is not equal to the simulated array — the minimum value 40 is
corrected to 40.3, the lowest retained quantile. -/
theorem claim_C2_counterexample :
    (apply_postprocessing_to_storms c2Df c2Sim c2Sim none false).map
        (fun out => out.1.headD none) = Except.ok (some (403/10)) ∧
    c2Sim.headD 0 = 40 ∧ ((403 : ℚ)/10 ≠ 40) := by
  refine ⟨by decide, by decide, by decide⟩

/-- C2 witness: the identity-at-quantiles part applied to the concrete
scenario-1 arrays. -/
theorem claim_C2_witness :
    create_quantile_mapping c2Sim c2Sim = Except.ok c2M ∧ c2M.obsQ = c2M.simQ :=
  ⟨by decide, claim_C2_identity_mapping.1 c2Sim c2M (by decide)⟩

/-! ### Grouped-correction lemmas -/

theorem setAt_getD_of_notMem (l : List (Option ℚ)) (idxs : List ℕ) (vals : List ℚ) (i : ℕ)
    (h : i ∉ idxs) : (setAt l idxs vals).getD i none = l.getD i none := by
  unfold setAt
  have haux : ∀ (pairs : List (ℕ × ℚ)), (∀ p ∈ pairs, p.1 ≠ i) →
      ∀ acc : List (Option ℚ),
        (pairs.foldl (fun acc p => acc.set p.1 (some p.2)) acc).getD i none =
          acc.getD i none := by
    intro pairs
    induction pairs with
    | nil =>
      intro _ acc
      rfl
    | cons p ps ih =>
      intro hp acc
      rw [List.foldl_cons, ih (fun q hq => hp q (List.mem_cons_of_mem _ hq))]
      exact getD_set_ne _ _ _ _ (hp p (List.mem_cons_self _ _))
  apply haux
  intro p hp hpe
  exact h (hpe ▸ (List.of_mem_zip hp).1)

theorem processGroup_tag {observed simulated : List ℚ} {idxs : List ℕ}
    {corr : List (Option ℚ)} {tag : String} {res : List (Option ℚ) × String}
    (h : processGroup observed simulated idxs corr tag = Except.ok res) :
    res.2 = groupTag observed simulated idxs tag := by
  unfold processGroup at h
  unfold groupTag
  split at h
  · rename_i hlen
    rw [if_pos hlen]
    split at h
    · cases h
    · injection h with h
      subst h
      rfl
  · rename_i hlen
    rw [if_neg hlen]
    split at h
    · injection h with h
      subst h
      rfl
    · split at h
      · cases h
      · injection h with h
        subst h
        rfl

theorem processGroup_corr_setAt {observed simulated : List ℚ} {idxs : List ℕ}
    {corr : List (Option ℚ)} {tag : String} {res : List (Option ℚ) × String}
    (h : processGroup observed simulated idxs corr tag = Except.ok res) :
    ∃ vals, res.1 = setAt corr idxs vals := by
  unfold processGroup at h
  split at h
  · split at h
    · cases h
    · injection h with h
      subst h
      exact ⟨_, rfl⟩
  · split at h
    · injection h with h
      subst h
      exact ⟨_, rfl⟩
    · split at h
      · cases h
      · injection h with h
        subst h
        exact ⟨_, rfl⟩

theorem processGroup_small {observed simulated : List ℚ} {idxs : List ℕ}
    {corr : List (Option ℚ)} {tag : String} {res : List (Option ℚ) × String}
    {m : QuantileMapping}
    (hlen : idxs.length < 10)
    (hfit : create_quantile_mapping observed simulated = Except.ok m)
    (h : processGroup observed simulated idxs corr tag = Except.ok res) :
    res = (setAt corr idxs (apply_quantile_correction m (selectAt simulated idxs)),
      "used_overall_mapping") := by
  unfold processGroup at h
  rw [if_pos hlen, hfit] at h
  injection h with h
  exact h.symm

theorem processGroup_fallback {observed simulated : List ℚ} {idxs : List ℕ}
    {corr : List (Option ℚ)} {tag : String} {res : List (Option ℚ) × String}
    {e : String} {m : QuantileMapping}
    (hlen : ¬ idxs.length < 10)
    (hgf : create_quantile_mapping (selectAt observed idxs) (selectAt simulated idxs) =
      Except.error e)
    (hfit : create_quantile_mapping observed simulated = Except.ok m)
    (h : processGroup observed simulated idxs corr tag = Except.ok res) :
    res = (setAt corr idxs (apply_quantile_correction m (selectAt simulated idxs)),
      "fallback_overall") := by
  unfold processGroup at h
  rw [if_neg hlen, hgf, hfit] at h
  injection h with h
  exact h.symm

theorem basin_run_decomp {df : List StormRow} {obs sim : List ℚ} {b : String}
    {corr : List (Option ℚ)} {info : MappingInfo}
    (h : apply_postprocessing_to_storms df obs sim (some b) false = Except.ok (corr, info)) :
    ∃ res, processGroup obs sim (basinIdxs df b) (List.replicate sim.length none)
        "basin_specific" = Except.ok res ∧ corr = res.1 ∧ info = basinInfo b res.2 := by
  unfold apply_postprocessing_to_storms at h
  split_ifs at h with h1 h2 h3
  · exact h3.elim
  · have hb : (processGroup obs sim (basinIdxs df b) (List.replicate sim.length none)
        "basin_specific").map (fun res => (res.1, basinInfo b res.2)) =
        Except.ok (corr, info) := h
    cases hres : processGroup obs sim (basinIdxs df b) (List.replicate sim.length none)
        "basin_specific" with
    | error e =>
      rw [hres] at hb
      cases hb
    | ok res =>
      rw [hres] at hb
      simp only [Except.map] at hb
      injection hb with hb
      rw [Prod.mk.injEq] at hb
      exact ⟨res, rfl, hb.1.symm, hb.2.symm⟩

theorem enso_run_decomp {df : List StormRow} {obs sim : List ℚ}
    {corr : List (Option ℚ)} {info : MappingInfo}
    (h : apply_postprocessing_to_storms df obs sim none true = Except.ok (corr, info)) :
    ∃ st, (phasesOf df).foldlM (ensoStep df obs sim)
        (List.replicate sim.length none, ([] : List (String × String))) = Except.ok st ∧
      corr = st.1 ∧ info = ensoInfo st.2 := by
  unfold apply_postprocessing_to_storms at h
  split_ifs at h with h1 h2 h3
  · cases hres : (phasesOf df).foldlM (ensoStep df obs sim)
        (List.replicate sim.length none, ([] : List (String × String))) with
    | error e =>
      rw [hres] at h
      cases h
    | ok st =>
      rw [hres] at h
      simp only [Except.map] at h
      injection h with h
      rw [Prod.mk.injEq] at h
      exact ⟨st, rfl, h.1.symm, h.2.symm⟩
  · exact absurd rfl h3

theorem ensoFold_mappings (df : List StormRow) (obs sim : List ℚ) :
    ∀ (phases : List String) (corr : List (Option ℚ)) (acc : List (String × String))
      (st : List (Option ℚ) × List (String × String)),
      phases.foldlM (ensoStep df obs sim) (corr, acc) = Except.ok st →
      st.2 = acc ++ phases.map
        (fun ph => (ph, groupTag obs sim (phaseIdxs df ph) "phase_specific")) := by
  intro phases
  induction phases with
  | nil =>
    intro corr acc st h
    injection h with h
    subst h
    simp
  | cons ph ps ih =>
    intro corr acc st h
    rw [List.foldlM_cons] at h
    cases hg : ensoStep df obs sim (corr, acc) ph with
    | error e =>
      rw [hg] at h
      cases h
    | ok st1 =>
      rw [hg] at h
      unfold ensoStep at hg
      cases hpg : processGroup obs sim (phaseIdxs df ph) corr "phase_specific" with
      | error e =>
        rw [hpg] at hg
        cases hg
      | ok res =>
        rw [hpg] at hg
        simp only [Except.map] at hg
        injection hg with hg
        subst hg
        have := ih res.1 (acc ++ [(ph, res.2)]) st h
        rw [this, processGroup_tag hpg]
        simp

theorem ensoFold_corr_untouched (df : List StormRow) (obs sim : List ℚ) :
    ∀ (phases : List String) (corr : List (Option ℚ)) (acc : List (String × String))
      (st : List (Option ℚ) × List (String × String)) (i : ℕ),
      phases.foldlM (ensoStep df obs sim) (corr, acc) = Except.ok st →
      (∀ ph ∈ phases, i ∉ phaseIdxs df ph) →
      st.1.getD i none = corr.getD i none := by
  intro phases
  induction phases with
  | nil =>
    intro corr acc st i h _
    injection h with h
    subst h
    rfl
  | cons ph ps ih =>
    intro corr acc st i h hnot
    rw [List.foldlM_cons] at h
    cases hg : ensoStep df obs sim (corr, acc) ph with
    | error e =>
      rw [hg] at h
      cases h
    | ok st1 =>
      rw [hg] at h
      unfold ensoStep at hg
      cases hpg : processGroup obs sim (phaseIdxs df ph) corr "phase_specific" with
      | error e =>
        rw [hpg] at hg
        cases hg
      | ok res =>
        rw [hpg] at hg
        simp only [Except.map] at hg
        injection hg with hg
        subst hg
        obtain ⟨vals, hvals⟩ := processGroup_corr_setAt hpg
        have hstep := ih res.1 (acc ++ [(ph, res.2)]) st i h
          (fun p hp => hnot p (List.mem_cons_of_mem _ hp))
        rw [hstep, hvals, setAt_getD_of_notMem _ _ _ _ (hnot ph (List.mem_cons_self _ _))]

/-- C6: in every grouped correction run that returns, a group with fewer
than 10 storms is corrected with the mapping fit on the full ungrouped
population and its provenance entry is the used-overall-mapping strategy,
never the group-specific one; and a group of 10 or more storms whose
group-specific fit raises is recorded as the fallback-overall strategy.
Stated for the per-basin branch (including the corrected values) and for
the per-ENSO-phase loop (whose full provenance list is characterized by
`groupTag`). -/
theorem claim_C6_grouping_fallback :
    (∀ (df : List StormRow) (obs sim : List ℚ) (b : String) (corr : List (Option ℚ))
        (info : MappingInfo),
        apply_postprocessing_to_storms df obs sim (some b) false = Except.ok (corr, info) →
        ((basinIdxs df b).length < 10 →
          info.mappings = [(b, "used_overall_mapping")] ∧
          ∀ m, create_quantile_mapping obs sim = Except.ok m →
            corr = setAt (List.replicate sim.length none) (basinIdxs df b)
              (apply_quantile_correction m (selectAt sim (basinIdxs df b)))) ∧
        (∀ e, 10 ≤ (basinIdxs df b).length →
          create_quantile_mapping (selectAt obs (basinIdxs df b))
            (selectAt sim (basinIdxs df b)) = Except.error e →
          info.mappings = [(b, "fallback_overall")])) ∧
    (∀ (df : List StormRow) (obs sim : List ℚ) (corr : List (Option ℚ))
        (info : MappingInfo),
        apply_postprocessing_to_storms df obs sim none true = Except.ok (corr, info) →
        info.mappings = (phasesOf df).map
          (fun ph => (ph, groupTag obs sim (phaseIdxs df ph) "phase_specific")) ∧
        ∀ ph ∈ phasesOf df,
          ((phaseIdxs df ph).length < 10 →
            (ph, "used_overall_mapping") ∈ info.mappings ∧
            (ph, "phase_specific") ∉ info.mappings) ∧
          (∀ e, 10 ≤ (phaseIdxs df ph).length →
            create_quantile_mapping (selectAt obs (phaseIdxs df ph))
              (selectAt sim (phaseIdxs df ph)) = Except.error e →
            (ph, "fallback_overall") ∈ info.mappings)) := by
  constructor
  · intro df obs sim b corr info h
    obtain ⟨res, hres, hcorr, hinfo⟩ := basin_run_decomp h
    constructor
    · intro hlen
      have htag : res.2 = "used_overall_mapping" := by
        rw [processGroup_tag hres]
        unfold groupTag
        rw [if_pos hlen]
      constructor
      · rw [hinfo, htag]
        rfl
      · intro m hfit
        have := processGroup_small hlen hfit hres
        rw [hcorr, this]
    · intro e h10 hgf
      have htag : res.2 = "fallback_overall" := by
        rw [processGroup_tag hres]
        unfold groupTag
        rw [if_neg (not_lt.mpr h10), hgf]
      rw [hinfo, htag]
      rfl
  · intro df obs sim corr info h
    obtain ⟨st, hst, hcorr, hinfo⟩ := enso_run_decomp h
    have hmaps : info.mappings = (phasesOf df).map
        (fun ph => (ph, groupTag obs sim (phaseIdxs df ph) "phase_specific")) := by
      rw [hinfo]
      have := ensoFold_mappings df obs sim (phasesOf df)
        (List.replicate sim.length none) [] st hst
      simpa using this
    refine ⟨hmaps, ?_⟩
    intro ph hph
    constructor
    · intro hlen
      have htag : groupTag obs sim (phaseIdxs df ph) "phase_specific" =
          "used_overall_mapping" := by
        unfold groupTag
        rw [if_pos hlen]
      constructor
      · rw [hmaps]
        exact List.mem_map.mpr ⟨ph, hph, by rw [htag]⟩
      · intro hmem
        rw [hmaps] at hmem
        obtain ⟨ph2, _, heq⟩ := List.mem_map.mp hmem
        rw [Prod.mk.injEq] at heq
        obtain ⟨rfl, heq2⟩ := heq
        rw [htag] at heq2
        exact absurd heq2 (by decide)
    · intro e h10 hgf
      have htag : groupTag obs sim (phaseIdxs df ph) "phase_specific" =
          "fallback_overall" := by
        unfold groupTag
        rw [if_neg (not_lt.mpr h10), hgf]
      rw [hmaps]
      exact List.mem_map.mpr ⟨ph, hph, by rw [htag]⟩

/-- C6 witness: the per-basin part applied to a run whose NA group has 3
storms — fewer than 10 — so the recorded strategy is the overall one. -/
theorem claim_C6_witness :
    (apply_postprocessing_to_storms c6df c6obs c6sim (some "NA") false =
        Except.ok (c6out.1, c6out.2) ∧ (basinIdxs c6df "NA").length < 10) ∧
    c6out.2.mappings = [("NA", "used_overall_mapping")] :=
  ⟨⟨by decide, by decide⟩,
   ((claim_C6_grouping_fallback.1 c6df c6obs c6sim "NA" c6out.1 c6out.2 (by decide)).1
      (by decide)).1⟩

/-- C10: in the grouped variants the corrected array starts as all-NaN
and only indices of storms in a processed group are assigned; a storm
belonging to no processed group (basin differing from the requested one,
or an ENSO phase missing from every iterated phase) keeps NaN in the
returned array, so the grouped output is not guaranteed finite. -/
theorem claim_C10_unprocessed_storms_stay_nan :
    (∀ (df : List StormRow) (obs sim : List ℚ) (b : String) (corr : List (Option ℚ))
        (info : MappingInfo),
        apply_postprocessing_to_storms df obs sim (some b) false = Except.ok (corr, info) →
        ∀ i, i ∉ basinIdxs df b → corr.getD i none = none) ∧
    (∀ (df : List StormRow) (obs sim : List ℚ) (corr : List (Option ℚ))
        (info : MappingInfo),
        apply_postprocessing_to_storms df obs sim none true = Except.ok (corr, info) →
        ∀ i, (∀ ph ∈ phasesOf df, i ∉ phaseIdxs df ph) → corr.getD i none = none) := by
  constructor
  · intro df obs sim b corr info h i hi
    obtain ⟨res, hres, hcorr, _⟩ := basin_run_decomp h
    obtain ⟨vals, hvals⟩ := processGroup_corr_setAt hres
    rw [hcorr, hvals, setAt_getD_of_notMem _ _ _ _ hi, getD_replicate_none]
  · intro df obs sim corr info h i hi
    obtain ⟨st, hst, hcorr, _⟩ := enso_run_decomp h
    rw [hcorr, ensoFold_corr_untouched df obs sim (phasesOf df)
      (List.replicate sim.length none) [] st i hst hi, getD_replicate_none]

/-- C10 witness: the per-basin part applied to a run where storm 0 lies
in basin EP while basin NA is corrected: its entry stays NaN. -/
theorem claim_C10_witness :
    (apply_postprocessing_to_storms c10df c10obs c10sim (some "NA") false =
        Except.ok (c10out.1, c10out.2) ∧ 0 ∉ basinIdxs c10df "NA") ∧
    c10out.1.getD 0 none = none :=
  ⟨⟨by decide, by decide⟩,
   claim_C10_unprocessed_storms_stay_nan.1 c10df c10obs c10sim "NA" c10out.1 c10out.2
     (by decide) 0 (by decide)⟩

end EnsoFinance
